import Mathlib

/-!
Shallow embedding of the `vincascm/socks5` SOCKS5 implementation
(crates `socks5`, `server`, `client`).

Byte streams are `List Nat` (each element a byte value). Reading consumes
from the front of the list. A Rust panic (out-of-range slice index) is
modelled by the distinct outcome `DErr.panic`; every other failure carries
the library's `Error {reply, message}` pair. Writes to the transport are
modelled by an injected fault list: each write attempt pops the next entry
(`none` = success, `some msg` = I/O error), and the successfully written
chunks are accumulated as the trace. The resolver, the outbound dialer and
the relay outcome are injected parameters, mirroring how the server code
consumes them.
-/

set_option autoImplicit false
set_option maxRecDepth 4000

/-- Protocol version byte, `VERSION` in `socks5/src/lib.rs`. -/
def VERSION : Nat := 5

/-- `Replies` enum from `message.rs`: the nine SOCKS5 reply codes. -/
inductive Replies where
  | Succeeded
  | GeneralFailure
  | ConnectionNotAllowed
  | NetworkUnreachable
  | HostUnreachable
  | ConnectionRefused
  | TtlExpired
  | CommandNotSupported
  | AddressTypeNotSupported
  deriving DecidableEq, Repr

/-- Wire value of a reply code (the enum discriminants in `message.rs`). -/
def Replies.toU8 : Replies → Nat
  | .Succeeded => 0x00
  | .GeneralFailure => 0x01
  | .ConnectionNotAllowed => 0x02
  | .NetworkUnreachable => 0x03
  | .HostUnreachable => 0x04
  | .ConnectionRefused => 0x05
  | .TtlExpired => 0x06
  | .CommandNotSupported => 0x07
  | .AddressTypeNotSupported => 0x08

/-- `Error` from `error.rs`: a reply code plus a message. -/
structure Error where
  reply : Replies
  message : String
  deriving DecidableEq, Repr

/-- `TryFrom<u8> for Replies` in `message.rs`. -/
def Replies.tryFrom (value : Nat) : Except Error Replies :=
  match value with
  | 0x00 => .ok .Succeeded
  | 0x01 => .ok .GeneralFailure
  | 0x02 => .ok .ConnectionNotAllowed
  | 0x03 => .ok .NetworkUnreachable
  | 0x04 => .ok .HostUnreachable
  | 0x05 => .ok .ConnectionRefused
  | 0x06 => .ok .TtlExpired
  | 0x07 => .ok .CommandNotSupported
  | 0x08 => .ok .AddressTypeNotSupported
  | _ => .error ⟨.GeneralFailure, "unsupported reply"⟩

/-- `From<Replies> for Error` in `message.rs`: the canonical message text. -/
def Replies.toError (reply : Replies) : Error :=
  let message :=
    match reply with
    | .Succeeded => "succeeded"
    | .GeneralFailure => "general failure"
    | .ConnectionNotAllowed => "connection not allowed"
    | .NetworkUnreachable => "network unreachable"
    | .HostUnreachable => "host unreachable"
    | .ConnectionRefused => "connection refused"
    | .TtlExpired => "TTL expired"
    | .CommandNotSupported => "command not supported"
    | .AddressTypeNotSupported => "address type not supported"
  ⟨reply, message⟩

/-- `Method` enum from `message.rs`. -/
inductive Method where
  | NONE
  | GSSAPI
  | PASSWORD
  | NotAcceptable
  deriving DecidableEq, Repr, BEq

/-- Wire value of a method (`message.rs` discriminants). -/
def Method.toU8 : Method → Nat
  | .NONE => 0x00
  | .GSSAPI => 0x01
  | .PASSWORD => 0x02
  | .NotAcceptable => 0xff

/-- `TryFrom<u8> for Method` in `message.rs`. -/
def Method.tryFrom (value : Nat) : Except Error Method :=
  match value with
  | 0x00 => .ok .NONE
  | 0x01 => .ok .GSSAPI
  | 0x02 => .ok .PASSWORD
  | 0xff => .ok .NotAcceptable
  | _ => .error ⟨.GeneralFailure, "unsupported method"⟩

/-- Modelled from the spec: `Method::size_hint` is called by
`AuthenticationRequest::decode` in `head.rs` but its definition lives in the
missing `socks5/src/message.rs`. The spec's wire table (request = 1 count
byte N + N method bytes, one byte per method) forces the value 1. -/
def Method.size_hint : Nat := 1

/-- `Command` enum from `message.rs`. -/
inductive Command where
  | Connect
  | Bind
  | UdpAssociate
  deriving DecidableEq, Repr

/-- Wire value of a command (`message.rs` discriminants). -/
def Command.toU8 : Command → Nat
  | .Connect => 0x01
  | .Bind => 0x02
  | .UdpAssociate => 0x03

/-- `TryFrom<u8> for Command` in `message.rs`. -/
def Command.tryFrom (value : Nat) : Except Error Command :=
  match value with
  | 0x01 => .ok .Connect
  | 0x02 => .ok .Bind
  | 0x03 => .ok .UdpAssociate
  | _ => .error ⟨.GeneralFailure, "unsupported command"⟩

/-- Outcome of a decode step: a Rust panic (out-of-range slice index, which
aborts the whole task) or a returned `Error`. -/
inductive DErr where
  | panic
  | fail (e : Error)
  deriving DecidableEq, Repr

/-- Result of a decode over a byte stream: the value plus the unconsumed
tail, or a `DErr`. -/
abbrev DRes (α : Type) := Except DErr (α × List Nat)

instance {ε α : Type} [DecidableEq ε] [DecidableEq α] : DecidableEq (Except ε α) :=
  fun a b =>
    match a, b with
    | .ok x, .ok y => decidable_of_iff (x = y) (by simp)
    | .error x, .error y => decidable_of_iff (x = y) (by simp)
    | .ok _, .error _ => .isFalse (by simp)
    | .error _, .ok _ => .isFalse (by simp)

/-- `read_exact` on the stream: take `n` bytes off the front; if the stream
is shorter, the I/O error (`UnexpectedEof`) converts to
`Error{GeneralFailure}` via `From<std::io::Error> for Error` in `error.rs`. -/
def read_exact (n : Nat) (s : List Nat) : DRes (List Nat) :=
  if n ≤ s.length then .ok (s.take n, s.drop n)
  else .error (.fail ⟨.GeneralFailure, "failed to fill whole buffer"⟩)

/-- `Decode::read_u8` in `ser.rs`: read one byte (`buf[0]`). -/
def read_u8 (s : List Nat) : DRes Nat :=
  match read_exact 1 s with
  | .error e => .error e
  | .ok (buf, rest) => .ok (buf.headD 0, rest)

/-- `Decode::read` in `ser.rs`, generic over the message's `decode`: read
the version byte, require it to equal `VERSION` (else
`Error{ConnectionRefused}`), then delegate to `decode`. -/
def Decode.read {α : Type} (decode : List Nat → DRes α) (s : List Nat) : DRes α :=
  match read_u8 s with
  | .error e => .error e
  | .ok (version, rest) =>
    if version ≠ VERSION then
      .error (.fail ⟨.ConnectionRefused, "unsupported socks version"⟩)
    else
      decode rest

/-- `Encode::as_bytes` in `ser.rs`: prepend the version byte to the
message's `encode` payload. -/
def asBytes (payload : List Nat) : List Nat := VERSION :: payload

/-- Rust slice indexing `&buf[a..b]` (so `&buf[a..=c]` is `sliceIdx buf a (c+1)`):
`none` models the out-of-range panic. -/
def sliceIdx (l : List Nat) (a b : Nat) : Option (List Nat) :=
  if a ≤ b ∧ b ≤ l.length then some ((l.drop a).take (b - a)) else none

/-- Big-endian bytes of a 16-bit value, as written by `put_u16`. -/
def u16be (x : Nat) : List Nat := [x / 256 % 256, x % 256]

/-- 16-bit value of two big-endian bytes (`u16::from_be_bytes`). -/
def u16fromBe (l : List Nat) : Nat :=
  match l with
  | [a, b] => a * 256 + b
  | _ => 0

/-- `SocketAddr`: IPv4 (4 octets) or IPv6 (16 octets), each with a port. -/
inductive SocketAddr where
  | v4 (octets : List Nat) (port : Nat)
  | v6 (octets : List Nat) (port : Nat)
  deriving DecidableEq, Repr

/-- `Ipv6Addr::segments()`: the 16 octets grouped into eight big-endian
16-bit segments. -/
def segments : List Nat → List Nat
  | a :: b :: rest => (a * 256 + b) :: segments rest
  | _ => []

/-- `Address` from `address.rs`: socket address or domain name + port. -/
inductive Address where
  | socket (addr : SocketAddr)
  | domainName (name : List Nat) (port : Nat)
  deriving DecidableEq, Repr

/-- `AddressType` from `address.rs`. -/
inductive AddressType where
  | Ipv4
  | DomainName
  | Ipv6
  deriving DecidableEq, Repr

/-- `TryFrom<u8> for AddressType` in `address.rs`: tags 1, 3, 4; any other
tag is `Error{AddressTypeNotSupported}`. -/
def AddressType.tryFrom (value : Nat) : Except Error AddressType :=
  match value with
  | 1 => .ok .Ipv4
  | 3 => .ok .DomainName
  | 4 => .ok .Ipv6
  | _ => .error ⟨.AddressTypeNotSupported, "unsupported address type"⟩

/-- Error produced when `try_into` a fixed-size array fails
(`From<TryFromSliceError> for Error` in `error.rs`). -/
def sliceConvError : Error := ⟨.GeneralFailure, "could not convert slice to array"⟩

/-- `Address::decode` in `address.rs`, including its slice arithmetic:
after the tag byte, the IPv4 arm reads 6 bytes into `buf` and slices
`buf[1..=4]` and `buf[5..=6]`; the IPv6 arm reads 18 bytes and slices
`buf[1..=16]` and `buf[17..=18]`; the domain arm reads a length byte `n`,
then `n + 2` bytes, taking `buf[..n]` and `buf[n..n+2]`. -/
def Address.decode (r : List Nat) : DRes Address :=
  match read_u8 r with
  | .error e => .error e
  | .ok (tag, rest) =>
    match AddressType.tryFrom tag with
    | .error e => .error (.fail e)
    | .ok .Ipv4 =>
      match read_exact 6 rest with
      | .error e => .error e
      | .ok (buf, rest2) =>
        match sliceIdx buf 1 5 with
        | none => .error .panic
        | some v4addr =>
          if v4addr.length = 4 then
            match sliceIdx buf 5 7 with
            | none => .error .panic
            | some portBytes =>
              if portBytes.length = 2 then
                .ok (.socket (.v4 v4addr (u16fromBe portBytes)), rest2)
              else .error (.fail sliceConvError)
          else .error (.fail sliceConvError)
    | .ok .Ipv6 =>
      match read_exact 18 rest with
      | .error e => .error e
      | .ok (buf, rest2) =>
        match sliceIdx buf 1 17 with
        | none => .error .panic
        | some v6addr =>
          if v6addr.length = 16 then
            match sliceIdx buf 17 19 with
            | none => .error .panic
            | some portBytes =>
              if portBytes.length = 2 then
                .ok (.socket (.v6 v6addr (u16fromBe portBytes)), rest2)
              else .error (.fail sliceConvError)
          else .error (.fail sliceConvError)
    | .ok .DomainName =>
      match read_u8 rest with
      | .error e => .error e
      | .ok (domain_len, rest1) =>
        match read_exact (domain_len + 2) rest1 with
        | .error e => .error e
        | .ok (buf, rest2) =>
          match sliceIdx buf domain_len (domain_len + 2) with
          | none => .error .panic
          | some portBytes =>
            if portBytes.length = 2 then
              .ok (.domainName (buf.take domain_len) (u16fromBe portBytes), rest2)
            else .error (.fail sliceConvError)

/-- `Address::encode` in `address.rs`: tag byte, then octets (IPv6 via
`put_u16` per segment) or length-prefixed name, then the big-endian port. -/
def Address.encode : Address → List Nat
  | .socket (.v4 octets port) => 1 :: (octets ++ u16be port)
  | .socket (.v6 octets port) => 4 :: ((segments octets).flatMap u16be ++ u16be port)
  | .domainName name port => 3 :: (name.length % 256) :: (name ++ u16be port)

/-- `Address::lookup` in `address.rs`: identity on socket addresses; calls
the injected resolver on a domain name, mapping its failure to
`Error{HostUnreachable}`. -/
def Address.lookup (addr : Address)
    (resolve : List Nat → Nat → Except String SocketAddr) : Except Error SocketAddr :=
  match addr with
  | .socket a => .ok a
  | .domainName name port =>
    match resolve name port with
    | .error e => .error ⟨.HostUnreachable, "domain resolving failed: " ++ e⟩
    | .ok a => .ok a

/-- `AuthenticationRequest` from `head.rs`: the list of offered methods. -/
structure AuthenticationRequest where
  methods : List Method
  deriving DecidableEq, Repr

/-- `AuthenticationRequest::required_authentication` in `head.rs`: true iff
the offered set does not contain `NONE`. -/
def AuthenticationRequest.required_authentication (r : AuthenticationRequest) : Bool :=
  !(r.methods.contains Method.NONE)

/-- Parsing the method bytes one by one (the `for i in buf` loop of
`AuthenticationRequest::decode`). -/
def decodeMethods : List Nat → Except Error (List Method)
  | [] => .ok []
  | b :: rest =>
    match Method.tryFrom b with
    | .error e => .error e
    | .ok m =>
      match decodeMethods rest with
      | .error e => .error e
      | .ok ms => .ok (m :: ms)

/-- `AuthenticationRequest::decode` in `head.rs`: count byte `n`, then
`n * Method::size_hint()` bytes, each parsed as a `Method`. -/
def AuthenticationRequest.decode (s : List Nat) : DRes AuthenticationRequest :=
  match read_u8 s with
  | .error e => .error e
  | .ok (n, rest) =>
    match read_exact (n * Method.size_hint) rest with
    | .error e => .error e
    | .ok (buf, rest2) =>
      match decodeMethods buf with
      | .error e => .error (.fail e)
      | .ok methods => .ok (⟨methods⟩, rest2)

/-- `AuthenticationRequest::encode` in `head.rs`. -/
def AuthenticationRequest.encode (r : AuthenticationRequest) : List Nat :=
  (r.methods.length % 256) :: r.methods.map Method.toU8

/-- `AuthenticationResponse` from `head.rs`: the single chosen method. -/
structure AuthenticationResponse where
  method : Method
  deriving DecidableEq, Repr

/-- `AuthenticationResponse::decode` in `head.rs`. -/
def AuthenticationResponse.decode (s : List Nat) : DRes AuthenticationResponse :=
  match read_u8 s with
  | .error e => .error e
  | .ok (m, rest) =>
    match Method.tryFrom m with
    | .error e => .error (.fail e)
    | .ok method => .ok (⟨method⟩, rest)

/-- `AuthenticationResponse::encode` in `head.rs`. -/
def AuthenticationResponse.encode (r : AuthenticationResponse) : List Nat :=
  [r.method.toU8]

/-- `SubNegotiationAuthenticationRequest` from `head.rs`; the Rust
`String` fields are modelled by their byte contents. -/
structure SubNegotiationAuthenticationRequest where
  username : List Nat
  password : List Nat
  deriving DecidableEq, Repr

/-- `SubNegotiationAuthenticationRequest::new` in `head.rs`: rejects a
username or password longer than 255 bytes. -/
def SubNegotiationAuthenticationRequest.new (username password : List Nat) :
    Except Error SubNegotiationAuthenticationRequest :=
  if username.length > 255 ∨ password.length > 255 then
    .error ⟨.GeneralFailure, "invalid length of username or password"⟩
  else
    .ok ⟨username, password⟩

/-- `SubNegotiationAuthenticationRequest::encode` in `head.rs`: sub-version
1, then each field length-prefixed; `len as u8` truncates to `len % 256`. -/
def SubNegotiationAuthenticationRequest.encode
    (r : SubNegotiationAuthenticationRequest) : List Nat :=
  1 :: (r.username.length % 256) :: (r.username ++
    (r.password.length % 256) :: r.password)

/-- `From<(T, U)> for SubNegotiationAuthenticationRequest` in `head.rs`:
builds the struct with no length check. -/
def SubNegotiationAuthenticationRequest.fromPair (username password : List Nat) :
    SubNegotiationAuthenticationRequest :=
  ⟨username, password⟩

/-- `SubNegotiationAuthenticationResponse` from `head.rs`. -/
structure SubNegotiationAuthenticationResponse where
  result : Nat
  deriving DecidableEq, Repr

/-- `SubNegotiationAuthenticationResponse::success` in `head.rs`. -/
def SubNegotiationAuthenticationResponse.success
    (r : SubNegotiationAuthenticationResponse) : Bool :=
  r.result == 0

/-- `SubNegotiationAuthenticationResponse::decode` in `head.rs`: the
sub-version byte must equal 1, then one result byte. -/
def SubNegotiationAuthenticationResponse.decode (s : List Nat) :
    DRes SubNegotiationAuthenticationResponse :=
  match read_u8 s with
  | .error e => .error e
  | .ok (version, rest) =>
    if version ≠ 1 then
      .error (.fail ⟨.GeneralFailure, "invalid sub negotiation version"⟩)
    else
      match read_u8 rest with
      | .error e => .error e
      | .ok (result, rest2) => .ok (⟨result⟩, rest2)

/-- `TcpRequestHeader` from `head.rs`. -/
structure TcpRequestHeader where
  command : Command
  address : Address
  deriving DecidableEq, Repr

/-- `TcpRequestHeader::decode` in `head.rs`: command byte, one reserved
byte read but not validated, then the address. -/
def TcpRequestHeader.decode (s : List Nat) : DRes TcpRequestHeader :=
  match read_u8 s with
  | .error e => .error e
  | .ok (c, rest) =>
    match Command.tryFrom c with
    | .error e => .error (.fail e)
    | .ok command =>
      match read_u8 rest with
      | .error e => .error e
      | .ok (_, rest1) =>
        match Address.decode rest1 with
        | .error e => .error e
        | .ok (address, rest2) => .ok (⟨command, address⟩, rest2)

/-- `TcpRequestHeader::encode` in `head.rs`. -/
def TcpRequestHeader.encode (h : TcpRequestHeader) : List Nat :=
  h.command.toU8 :: 0 :: h.address.encode

/-- `TcpResponseHeader` from `head.rs`. -/
structure TcpResponseHeader where
  reply : Replies
  address : Address
  deriving DecidableEq, Repr

/-- `TcpResponseHeader::is_success` in `head.rs`. -/
def TcpResponseHeader.is_success (h : TcpResponseHeader) : Bool :=
  h.reply == Replies.Succeeded

/-- `TcpResponseHeader::decode` in `head.rs`. -/
def TcpResponseHeader.decode (s : List Nat) : DRes TcpResponseHeader :=
  match read_u8 s with
  | .error e => .error e
  | .ok (r, rest) =>
    match Replies.tryFrom r with
    | .error e => .error (.fail e)
    | .ok reply =>
      match read_u8 rest with
      | .error e => .error e
      | .ok (_, rest1) =>
        match Address.decode rest1 with
        | .error e => .error e
        | .ok (address, rest2) => .ok (⟨reply, address⟩, rest2)

/-- `TcpResponseHeader::encode` in `head.rs`. -/
def TcpResponseHeader.encode (h : TcpResponseHeader) : List Nat :=
  h.reply.toU8 :: 0 :: h.address.encode

/-- `Replies::into_response` in `message.rs`. -/
def Replies.into_response (reply : Replies) (address : Address) : TcpResponseHeader :=
  ⟨reply, address⟩

/-- `server::Error` (or `client::Error`'s shared arms): a propagated
`socks5::Error` or an I/O error, here carried as its message. -/
inductive ServerError where
  | socks (e : Error)
  | io (m : String)
  deriving DecidableEq, Repr

/-- Outcome of the whole `proxy` call: a panic propagating out of a decode,
or the function's `Result`. -/
abbrev PRes := Except (Option ServerError) Unit
-- `Except.error none` = panic; `Except.error (some e)` = `Err(e)`.

/-- One write attempt against the injected fault list (`server::write` /
`client::write` doing `write_all` + `flush`): pop the next entry; `none`
means the write succeeds, `some m` means it fails with I/O error `m`. An
exhausted list means all remaining writes succeed. -/
def writeStep (faults : List (Option String)) : Except String (List (Option String)) :=
  match faults with
  | [] => .ok []
  | none :: fs => .ok fs
  | some m :: _ => .error m

/-- The `AuthenticationResponse` the server builds in `proxy`
(`server/src/lib.rs`): `NotAcceptable` when authentication would be
required, else `NONE`. -/
def serverAuthResponse (r : AuthenticationRequest) : AuthenticationResponse :=
  ⟨if r.required_authentication then .NotAcceptable else .NONE⟩

/-- The request/dispatch phase of `proxy` (`server/src/lib.rs`, from the
`TcpRequestHeader::read` onwards): returns the `Result` together with the
chunks written in this phase. `resolve` is the injected resolver
(`lookup`), `dial` the outbound TCP connect, `relay` the outcome of
`race(copy, copy)` mapped to `()`. -/
def proxyRequests (rest : List Nat) (fs : List (Option String)) (src : SocketAddr)
    (resolve : List Nat → Nat → Except String SocketAddr)
    (dial : SocketAddr → Except String Unit)
    (relay : Except String Unit) : PRes × List (List Nat) :=
  match Decode.read TcpRequestHeader.decode rest with
  | .error .panic => (.error none, [])
  | .error (.fail e) =>
    let chunk := asBytes (e.reply.into_response (.socket src)).encode
    match writeStep fs with
    | .error m => (.error (some (.io m)), [])
    | .ok _ => (.error (some (.socks e)), [chunk])
  | .ok (header, _) =>
    let addr := header.address
    match header.command with
    | .Connect =>
      match addr.lookup resolve with
      | .error e =>
        let chunk := asBytes (e.reply.into_response addr).encode
        match writeStep fs with
        | .error m => (.error (some (.io m)), [])
        | .ok _ => (.error (some (.socks e)), [chunk])
      | .ok dest_addr =>
        match dial dest_addr with
        | .error m => (.error (some (.io m)), [])
        | .ok _ =>
          let chunk := asBytes (Replies.Succeeded.into_response (.socket dest_addr)).encode
          match writeStep fs with
          | .error m => (.error (some (.io m)), [])
          | .ok _ =>
            match relay with
            | .error m => (.error (some (.io m)), [chunk])
            | .ok _ => (.ok (), [chunk])
    | _ =>
      let chunk := asBytes ((Replies.CommandNotSupported).into_response addr).encode
      match writeStep fs with
      | .error m => (.error (some (.io m)), [])
      | .ok _ => (.ok (), [chunk])

/-- `proxy` in `server/src/lib.rs`: read the `AuthenticationRequest`,
answer with `serverAuthResponse`, then run the request/dispatch phase.
The second component is the trace of chunks successfully written. -/
def proxy (input : List Nat) (faults : List (Option String)) (src : SocketAddr)
    (resolve : List Nat → Nat → Except String SocketAddr)
    (dial : SocketAddr → Except String Unit)
    (relay : Except String Unit) : PRes × List (List Nat) :=
  match Decode.read AuthenticationRequest.decode input with
  | .error .panic => (.error none, [])
  | .error (.fail e) => (.error (some (.socks e)), [])
  | .ok (authenticationRequest, rest) =>
    let chunk := asBytes (serverAuthResponse authenticationRequest).encode
    match writeStep faults with
    | .error m => (.error (some (.io m)), [])
    | .ok fs =>
      ((proxyRequests rest fs src resolve dial relay).1,
        chunk :: (proxyRequests rest fs src resolve dial relay).2)

/-- `client::Error` from `client/src/lib.rs`. -/
inductive ClientError where
  | socks (e : Error)
  | io (m : String)
  | unsupportMethodGssApi
  | requireAuth
  | notAcceptable
  | authFailure
  deriving DecidableEq, Repr

/-- Outcome of the client `connect` call: a panic out of a decode, or the
function's `Result`. -/
abbrev CRes := Except (Option ClientError) Unit
-- `Except.error none` = panic; `Except.error (some e)` = `Err(e)`.

/-- The request phase of the client `connect` (`client/src/lib.rs`): write
the framed `TcpRequestHeader{Connect, dest}`, read the framed
`TcpResponseHeader`, succeed iff its reply is `Succeeded`, else convert
the reply into an `Error` via `From<Replies> for Error`. -/
def clientRequest (rest : List Nat) (fs : List (Option String)) (dest : Address) :
    CRes × List (List Nat) :=
  let chunk := asBytes (TcpRequestHeader.encode ⟨.Connect, dest⟩)
  match writeStep fs with
  | .error m => (.error (some (.io m)), [])
  | .ok _ =>
    match Decode.read TcpResponseHeader.decode rest with
    | .error .panic => (.error none, [chunk])
    | .error (.fail e) => (.error (some (.socks e)), [chunk])
    | .ok (tcpResp, _) =>
      if tcpResp.is_success then (.ok (), [chunk])
      else (.error (some (.socks tcpResp.reply.toError)), [chunk])

/-- The branch of the client `connect` on the server's chosen method
(`client/src/lib.rs`): `NONE` proceeds to the request phase; `PASSWORD`
runs the sub-negotiation when credentials were given (note: the
sub-negotiation request is written via `encode`, without the version
byte) and fails with `RequireAuth` otherwise; `NotAcceptable` and
`GSSAPI` fail immediately. -/
def clientAfterAuth (method : Method) (rest : List Nat) (fs : List (Option String))
    (dest : Address) (auth_info : Option SubNegotiationAuthenticationRequest) :
    CRes × List (List Nat) :=
  match method with
  | .NONE => clientRequest rest fs dest
  | .PASSWORD =>
    match auth_info with
    | some a =>
      let chunk := a.encode
      match writeStep fs with
      | .error m => (.error (some (.io m)), [])
      | .ok fs2 =>
        match SubNegotiationAuthenticationResponse.decode rest with
        | .error .panic => (.error none, [chunk])
        | .error (.fail e) => (.error (some (.socks e)), [chunk])
        | .ok (authResp, rest2) =>
          if authResp.success then
            ((clientRequest rest2 fs2 dest).1, chunk :: (clientRequest rest2 fs2 dest).2)
          else (.error (some .authFailure), [chunk])
    | none => (.error (some .requireAuth), [])
  | .NotAcceptable => (.error (some .notAcceptable), [])
  | .GSSAPI => (.error (some .unsupportMethodGssApi), [])

/-- `connect` in `client/src/lib.rs`: offer `PASSWORD` when credentials
were supplied and `NONE` otherwise, write the framed request, read the
framed `AuthenticationResponse`, branch on the chosen method, then run
the CONNECT exchange. The second component is the trace of chunks
successfully written. -/
def connect (input : List Nat) (faults : List (Option String)) (dest : Address)
    (auth_info : Option SubNegotiationAuthenticationRequest) :
    CRes × List (List Nat) :=
  let method : Method :=
    match auth_info with
    | some _ => .PASSWORD
    | none => .NONE
  let chunk := asBytes (AuthenticationRequest.encode ⟨[method]⟩)
  match writeStep faults with
  | .error m => (.error (some (.io m)), [])
  | .ok fs =>
    match Decode.read AuthenticationResponse.decode input with
    | .error .panic => (.error none, [chunk])
    | .error (.fail e) => (.error (some (.socks e)), [chunk])
    | .ok (authResp, rest) =>
      ((clientAfterAuth authResp.method rest fs dest auth_info).1,
        chunk :: (clientAfterAuth authResp.method rest fs dest auth_info).2)

/-- Claim C1: the round-trip `decode(encode(a)) == a` fails for socket
addresses — `Address::decode` slices `buf[5..=6]` out of a 6-byte IPv4
buffer and `buf[17..=18]` out of an 18-byte IPv6 buffer, so decoding the
encoding of any IPv4 or IPv6 address panics; the domain-name variant does
round-trip (shown here at lengths 0, 1 and 255). -/
theorem decode_encode_roundtrip_panics_on_socket_addresses :
    Address.decode (Address.encode (.socket (.v4 [127, 0, 0, 1] 80))) = .error .panic ∧
    Address.decode (Address.encode
      (.socket (.v6 [0, 0, 0, 0, 0, 0, 0, 0, 0, 0, 0, 0, 0, 0, 0, 1] 443))) = .error .panic ∧
    Address.decode (Address.encode (.domainName [] 80)) =
      .ok (.domainName [] 80, []) ∧
    Address.decode (Address.encode (.domainName [97] 80)) =
      .ok (.domainName [97] 80, []) ∧
    Address.decode (Address.encode (.domainName (List.replicate 255 97) 80)) =
      .ok (.domainName (List.replicate 255 97) 80, []) := by
  refine ⟨by decide, by decide, by decide, by decide, ?_⟩
  decide

/-- Claim C2: for every message type (any `decode` continuation) and every
stream whose first byte is not `0x05`, the framed `Decode::read` fails
with `Error{ConnectionRefused}`. -/
theorem read_rejects_wrong_version {α : Type} (decode : List Nat → DRes α)
    (b : Nat) (rest : List Nat) (h : b ≠ 5) :
    Decode.read decode (b :: rest) =
      .error (.fail ⟨.ConnectionRefused, "unsupported socks version"⟩) := by
  unfold Decode.read read_u8 read_exact
  simp [VERSION, h]

/-- Witness for C2 at the concrete stream `[6, 0]` and the
`AuthenticationResponse` decoder. -/
theorem read_rejects_wrong_version_witness :
    (6 : Nat) ≠ 5 ∧
    Decode.read AuthenticationResponse.decode [6, 0] =
      .error (.fail ⟨.ConnectionRefused, "unsupported socks version"⟩) :=
  ⟨by decide, read_rejects_wrong_version AuthenticationResponse.decode 6 [0] (by decide)⟩

/-- Claim C10: `SubNegotiationAuthenticationRequest::new` errors exactly
when the username or the password exceeds 255 bytes; the `From` conversion
builds the same struct with no check; `encode` writes each length byte as
the length modulo 256; and for a field longer than 255 bytes that length
byte differs from the number of data bytes that follow it. -/
theorem subnegotiation_request_length_fields :
    (∀ u p : List Nat,
      (∃ e, SubNegotiationAuthenticationRequest.new u p = .error e) ↔
        (u.length > 255 ∨ p.length > 255)) ∧
    (∀ u p : List Nat, SubNegotiationAuthenticationRequest.fromPair u p = ⟨u, p⟩) ∧
    (∀ u p : List Nat, (SubNegotiationAuthenticationRequest.fromPair u p).encode =
      1 :: (u.length % 256) :: (u ++ (p.length % 256) :: p)) ∧
    (∀ u : List Nat, u.length > 255 → u.length % 256 ≠ u.length) := by
  refine ⟨?_, fun u p => rfl, fun u p => rfl, ?_⟩
  · intro u p
    unfold SubNegotiationAuthenticationRequest.new
    constructor
    · intro ⟨e, he⟩
      by_contra hn
      rw [if_neg hn] at he
      exact Except.noConfusion he
    · intro h
      exact ⟨_, if_pos h⟩
  · intro u h
    have h2 : u.length % 256 < 256 := Nat.mod_lt _ (by omega)
    omega

/-- Witness for C10 at a 256-byte username: the encoded length byte is 0,
which differs from the 256 data bytes that follow. -/
theorem subnegotiation_request_length_fields_witness :
    (SubNegotiationAuthenticationRequest.fromPair (List.replicate 256 97) [98]).encode =
      1 :: ((List.replicate 256 97).length % 256) ::
        (List.replicate 256 97 ++ ((98 :: List.nil).length % 256) :: [98]) ∧
    (List.replicate 256 97).length % 256 ≠ (List.replicate 256 97).length :=
  ⟨subnegotiation_request_length_fields.2.2.1 (List.replicate 256 97) [98],
   subnegotiation_request_length_fields.2.2.2 (List.replicate 256 97) (by simp)⟩

/-- Claim C3: for every `AuthenticationRequest` the server reads, the
`AuthenticationResponse` it writes back (the first chunk of the trace)
carries `NONE` when the offered set contains `NONE` and `NotAcceptable`
otherwise; the server's selection is never `PASSWORD` or `GSSAPI`. -/
theorem proxy_auth_response_selection (input rest : List Nat)
    (req : AuthenticationRequest) (fs : List (Option String)) (src : SocketAddr)
    (resolve : List Nat → Nat → Except String SocketAddr)
    (dial : SocketAddr → Except String Unit) (relay : Except String Unit)
    (h : Decode.read AuthenticationRequest.decode input = .ok (req, rest)) :
    proxy input (none :: fs) src resolve dial relay =
      ((proxyRequests rest fs src resolve dial relay).1,
        asBytes (serverAuthResponse req).encode ::
        (proxyRequests rest fs src resolve dial relay).2) ∧
    (serverAuthResponse req).method =
      (if req.methods.contains Method.NONE then .NONE else .NotAcceptable) ∧
    (∀ r : AuthenticationRequest,
      (serverAuthResponse r).method ≠ .PASSWORD ∧ (serverAuthResponse r).method ≠ .GSSAPI) := by
  refine ⟨?_, ?_, ?_⟩
  · unfold proxy
    rw [h]
    dsimp only
    simp [writeStep]
  · unfold serverAuthResponse AuthenticationRequest.required_authentication
    cases hc : req.methods.contains Method.NONE <;> simp
  · intro r
    unfold serverAuthResponse
    cases hr : r.required_authentication <;> simp

/-- Witness for C3: a client offering only `NONE`, with an empty remainder
of the stream. -/
theorem proxy_auth_response_selection_witness :
    Decode.read AuthenticationRequest.decode [5, 1, 0] = .ok (⟨[Method.NONE]⟩, []) ∧
    proxy [5, 1, 0] [none] (.v4 [127, 0, 0, 1] 1080)
        (fun _ _ => .error "dns") (fun _ => .ok ()) (.ok ()) =
      ((proxyRequests [] [] (.v4 [127, 0, 0, 1] 1080)
          (fun _ _ => .error "dns") (fun _ => .ok ()) (.ok ())).1,
        asBytes (AuthenticationResponse.encode ⟨.NONE⟩) ::
        (proxyRequests [] [] (.v4 [127, 0, 0, 1] 1080)
          (fun _ _ => .error "dns") (fun _ => .ok ()) (.ok ())).2) :=
  ⟨by decide,
   ((proxy_auth_response_selection [5, 1, 0] [] ⟨[Method.NONE]⟩ [] (.v4 [127, 0, 0, 1] 1080)
      (fun _ _ => .error "dns") (fun _ => .ok ()) (.ok ()) (by decide)).1).trans (by decide)⟩

/-- Claim C4: when the server's read of the `TcpRequestHeader` fails with
`e`, it writes a `TcpResponseHeader` carrying `e`'s reply code and the
inbound peer address and returns `e`; when that response write itself
fails, the write failure is returned instead and nothing further is
written. -/
theorem proxy_request_read_failure_reply (input rest : List Nat)
    (req : AuthenticationRequest) (e : Error) (fs : List (Option String))
    (src : SocketAddr) (resolve : List Nat → Nat → Except String SocketAddr)
    (dial : SocketAddr → Except String Unit) (relay : Except String Unit)
    (h1 : Decode.read AuthenticationRequest.decode input = .ok (req, rest))
    (h2 : Decode.read TcpRequestHeader.decode rest = .error (.fail e)) :
    proxy input (none :: none :: fs) src resolve dial relay =
      (.error (some (.socks e)),
        [asBytes (serverAuthResponse req).encode,
         asBytes (e.reply.into_response (.socket src)).encode]) ∧
    (∀ m, proxy input (none :: some m :: fs) src resolve dial relay =
      (.error (some (.io m)), [asBytes (serverAuthResponse req).encode])) := by
  constructor
  · unfold proxy proxyRequests
    rw [h1]
    dsimp only
    rw [h2]
    simp [writeStep]
  · intro m
    unfold proxy proxyRequests
    rw [h1]
    dsimp only
    rw [h2]
    simp [writeStep]

/-- Witness for C4: a request stream whose command byte 9 is invalid, with
both a succeeding and a failing response write. -/
theorem proxy_request_read_failure_reply_witness :
    Decode.read AuthenticationRequest.decode [5, 1, 0, 5, 9] = .ok (⟨[Method.NONE]⟩, [5, 9]) ∧
    Decode.read TcpRequestHeader.decode [5, 9] =
      .error (.fail ⟨.GeneralFailure, "unsupported command"⟩) ∧
    proxy [5, 1, 0, 5, 9] [none, none] (.v4 [127, 0, 0, 1] 1080)
        (fun _ _ => .error "dns") (fun _ => .ok ()) (.ok ()) =
      (.error (some (.socks ⟨.GeneralFailure, "unsupported command"⟩)),
        [asBytes (serverAuthResponse ⟨[Method.NONE]⟩).encode,
         asBytes ((⟨.GeneralFailure, "unsupported command"⟩ : Error).reply.into_response
           (.socket (.v4 [127, 0, 0, 1] 1080))).encode]) ∧
    proxy [5, 1, 0, 5, 9] [none, some "broken pipe"] (.v4 [127, 0, 0, 1] 1080)
        (fun _ _ => .error "dns") (fun _ => .ok ()) (.ok ()) =
      (.error (some (.io "broken pipe")),
        [asBytes (serverAuthResponse ⟨[Method.NONE]⟩).encode]) :=
  ⟨by decide, by decide,
   (proxy_request_read_failure_reply [5, 1, 0, 5, 9] [5, 9] ⟨[Method.NONE]⟩
      ⟨.GeneralFailure, "unsupported command"⟩ [] (.v4 [127, 0, 0, 1] 1080)
      (fun _ _ => .error "dns") (fun _ => .ok ()) (.ok ()) (by decide) (by decide)).1,
   (proxy_request_read_failure_reply [5, 1, 0, 5, 9] [5, 9] ⟨[Method.NONE]⟩
      ⟨.GeneralFailure, "unsupported command"⟩ [] (.v4 [127, 0, 0, 1] 1080)
      (fun _ _ => .error "dns") (fun _ => .ok ()) (.ok ()) (by decide) (by decide)).2
     "broken pipe"⟩

/-- Claim C5: in the Connect dispatch, a resolver failure is mapped to
`Error{HostUnreachable}` and the server writes the response header built
from that error against the unresolved request address before returning
the error; a failure of the outbound dial is returned as an I/O error
with no response header written. -/
theorem proxy_connect_resolve_vs_dial_failure (input rest rest2 : List Nat)
    (req : AuthenticationRequest) (header : TcpRequestHeader)
    (fs fs2 : List (Option String)) (src : SocketAddr)
    (resolve : List Nat → Nat → Except String SocketAddr)
    (dial : SocketAddr → Except String Unit) (relay : Except String Unit)
    (h1 : Decode.read AuthenticationRequest.decode input = .ok (req, rest))
    (h2 : Decode.read TcpRequestHeader.decode rest = .ok (header, rest2))
    (h3 : header.command = .Connect) :
    (∀ name port msg, header.address = .domainName name port →
      resolve name port = .error msg →
      proxy input (none :: none :: fs) src resolve dial relay =
        (.error (some (.socks ⟨.HostUnreachable, "domain resolving failed: " ++ msg⟩)),
          [asBytes (serverAuthResponse req).encode,
           asBytes ((Replies.HostUnreachable).into_response
             (.domainName name port)).encode])) ∧
    (∀ dst m, header.address.lookup resolve = .ok dst → dial dst = .error m →
      proxy input (none :: fs2) src resolve dial relay =
        (.error (some (.io m)), [asBytes (serverAuthResponse req).encode])) := by
  constructor
  · intro name port msg haddr hres
    unfold proxy proxyRequests
    rw [h1]
    dsimp only
    rw [h2]
    dsimp only
    rw [h3]
    dsimp only
    unfold Address.lookup
    rw [haddr]
    dsimp only
    rw [hres]
    simp [writeStep]
  · intro dst m hlook hdial
    unfold proxy proxyRequests
    rw [h1]
    dsimp only
    rw [h2]
    dsimp only
    rw [h3]
    dsimp only
    rw [hlook]
    dsimp only
    rw [hdial]
    simp [writeStep]

/-- Witness for C5: a Connect request for domain "a", once with a failing
resolver (a HostUnreachable reply is written) and once with a succeeding
resolver but a failing dial (only the auth chunk is ever written). -/
theorem proxy_connect_resolve_vs_dial_failure_witness :
    proxy [5, 1, 0, 5, 1, 0, 3, 1, 97, 0, 80] [none, none] (.v4 [127, 0, 0, 1] 1080)
        (fun _ _ => .error "no record") (fun _ => .ok ()) (.ok ()) =
      (.error (some (.socks ⟨.HostUnreachable, "domain resolving failed: " ++ "no record"⟩)),
        [asBytes (serverAuthResponse ⟨[Method.NONE]⟩).encode,
         asBytes ((Replies.HostUnreachable).into_response (.domainName [97] 80)).encode]) ∧
    proxy [5, 1, 0, 5, 1, 0, 3, 1, 97, 0, 80] [none] (.v4 [127, 0, 0, 1] 1080)
        (fun _ _ => .ok (.v4 [1, 2, 3, 4] 80)) (fun _ => .error "refused") (.ok ()) =
      (.error (some (.io "refused")),
        [asBytes (serverAuthResponse ⟨[Method.NONE]⟩).encode]) :=
  ⟨(proxy_connect_resolve_vs_dial_failure [5, 1, 0, 5, 1, 0, 3, 1, 97, 0, 80] [5, 1, 0, 3, 1, 97, 0, 80]
      [] ⟨[Method.NONE]⟩ ⟨.Connect, .domainName [97] 80⟩ [] [] (.v4 [127, 0, 0, 1] 1080)
      (fun _ _ => .error "no record") (fun _ => .ok ()) (.ok ())
      (by decide) (by decide) rfl).1 [97] 80 "no record" rfl rfl,
   (proxy_connect_resolve_vs_dial_failure [5, 1, 0, 5, 1, 0, 3, 1, 97, 0, 80] [5, 1, 0, 3, 1, 97, 0, 80]
      [] ⟨[Method.NONE]⟩ ⟨.Connect, .domainName [97] 80⟩ [] [] (.v4 [127, 0, 0, 1] 1080)
      (fun _ _ => .ok (.v4 [1, 2, 3, 4] 80)) (fun _ => .error "refused") (.ok ())
      (by decide) (by decide) rfl).2 (.v4 [1, 2, 3, 4] 80) "refused" rfl rfl⟩

/-- Claim C6: for every successfully read `TcpRequestHeader` whose command
is `Bind` or `UdpAssociate`, the server writes a `CommandNotSupported`
response against the header's address and succeeds; the result does not
involve the resolver, the dialer or the relay (they are universally
quantified and absent from the right-hand side). -/
theorem proxy_bind_udp_command_not_supported (input rest rest2 : List Nat)
    (req : AuthenticationRequest) (header : TcpRequestHeader)
    (fs : List (Option String)) (src : SocketAddr)
    (resolve : List Nat → Nat → Except String SocketAddr)
    (dial : SocketAddr → Except String Unit) (relay : Except String Unit)
    (h1 : Decode.read AuthenticationRequest.decode input = .ok (req, rest))
    (h2 : Decode.read TcpRequestHeader.decode rest = .ok (header, rest2))
    (h3 : header.command = .Bind ∨ header.command = .UdpAssociate) :
    proxy input (none :: none :: fs) src resolve dial relay =
      (.ok (), [asBytes (serverAuthResponse req).encode,
                asBytes ((Replies.CommandNotSupported).into_response header.address).encode]) := by
  unfold proxy proxyRequests
  rw [h1]
  dsimp only
  rw [h2]
  dsimp only
  rcases h3 with h | h <;> rw [h] <;> simp [writeStep]

/-- Witness for C6: a Bind request for domain of length 0 on port 80. -/
theorem proxy_bind_udp_command_not_supported_witness :
    proxy [5, 1, 0, 5, 2, 0, 3, 0, 0, 80] [none, none] (.v4 [127, 0, 0, 1] 1080)
        (fun _ _ => .error "dns") (fun _ => .ok ()) (.ok ()) =
      (.ok (), [asBytes (serverAuthResponse ⟨[Method.NONE]⟩).encode,
                asBytes ((Replies.CommandNotSupported).into_response (.domainName [] 80)).encode]) :=
  proxy_bind_udp_command_not_supported [5, 1, 0, 5, 2, 0, 3, 0, 0, 80] [5, 2, 0, 3, 0, 0, 80]
    [] ⟨[Method.NONE]⟩ ⟨.Bind, .domainName [] 80⟩ [] (.v4 [127, 0, 0, 1] 1080)
    (fun _ _ => .error "dns") (fun _ => .ok ()) (.ok ())
    (by decide) (by decide) (Or.inl rfl)

/-- Claim C7: when the client was given no credentials and the server's
`AuthenticationResponse` selects `PASSWORD`, `connect` returns
`RequireAuth`, and the trace holds exactly the one authentication-request
chunk written before that response was read — nothing after it. -/
theorem connect_password_without_credentials (input rest : List Nat)
    (fs : List (Option String)) (dest : Address) (resp : AuthenticationResponse)
    (h1 : Decode.read AuthenticationResponse.decode input = .ok (resp, rest))
    (h2 : resp.method = .PASSWORD) :
    connect input (none :: fs) dest none =
      (.error (some .requireAuth),
        [asBytes (AuthenticationRequest.encode ⟨[Method.NONE]⟩)]) := by
  unfold connect
  rw [h1]
  dsimp only
  rw [h2]
  unfold clientAfterAuth
  simp [writeStep]

/-- Witness for C7: the server stream `[5, 2]` (version 5, method
PASSWORD). -/
theorem connect_password_without_credentials_witness :
    connect [5, 2] [none] (.domainName [97] 80) none =
      (.error (some .requireAuth),
        [asBytes (AuthenticationRequest.encode ⟨[Method.NONE]⟩)]) :=
  connect_password_without_credentials [5, 2] [] [] (.domainName [97] 80) ⟨.PASSWORD⟩
    (by decide) rfl

/-- Claim C9: after answering `NotAcceptable` the server does not stop: the
rest of `proxy` is the same request/dispatch phase `proxyRequests` that
runs after a successful no-auth negotiation, so the result and every
chunk after the first coincide with those of a run whose offered set
contained `NONE` and left the same remaining stream. -/
theorem proxy_continues_after_not_acceptable (input input2 rest : List Nat)
    (req req2 : AuthenticationRequest) (fs : List (Option String)) (src : SocketAddr)
    (resolve : List Nat → Nat → Except String SocketAddr)
    (dial : SocketAddr → Except String Unit) (relay : Except String Unit)
    (h1 : Decode.read AuthenticationRequest.decode input = .ok (req, rest))
    (h2 : req.required_authentication = true)
    (h3 : Decode.read AuthenticationRequest.decode input2 = .ok (req2, rest))
    (h4 : req2.required_authentication = false) :
    proxy input (none :: fs) src resolve dial relay =
      ((proxyRequests rest fs src resolve dial relay).1,
        asBytes (AuthenticationResponse.encode ⟨.NotAcceptable⟩) ::
        (proxyRequests rest fs src resolve dial relay).2) ∧
    (proxy input (none :: fs) src resolve dial relay).1 =
      (proxy input2 (none :: fs) src resolve dial relay).1 ∧
    (proxy input (none :: fs) src resolve dial relay).2.tail =
      (proxy input2 (none :: fs) src resolve dial relay).2.tail := by
  refine ⟨?_, ?_, ?_⟩
  · unfold proxy
    rw [h1]
    dsimp only
    simp [writeStep, serverAuthResponse, h2, AuthenticationResponse.encode]
  · unfold proxy
    rw [h1, h3]
    dsimp only
    simp [writeStep]
  · unfold proxy
    rw [h1, h3]
    dsimp only
    simp [writeStep]

/-- Witness for C9: a client offering only PASSWORD versus one offering
NONE, both followed by an empty remainder. -/
theorem proxy_continues_after_not_acceptable_witness :
    proxy [5, 1, 2] [none] (.v4 [127, 0, 0, 1] 1080)
        (fun _ _ => .error "dns") (fun _ => .ok ()) (.ok ()) =
      ((proxyRequests [] [] (.v4 [127, 0, 0, 1] 1080)
          (fun _ _ => .error "dns") (fun _ => .ok ()) (.ok ())).1,
        asBytes (AuthenticationResponse.encode ⟨.NotAcceptable⟩) ::
        (proxyRequests [] [] (.v4 [127, 0, 0, 1] 1080)
          (fun _ _ => .error "dns") (fun _ => .ok ()) (.ok ())).2) :=
  (proxy_continues_after_not_acceptable [5, 1, 2] [5, 1, 0] [] ⟨[Method.PASSWORD]⟩
    ⟨[Method.NONE]⟩ [] (.v4 [127, 0, 0, 1] 1080)
    (fun _ _ => .error "dns") (fun _ => .ok ()) (.ok ())
    (by decide) (by decide) (by decide) (by decide)).1
